import Mathlib

/-!
Shallow embedding of `src/graphics.rs` (crate `gestalt-web`): a WebGL2 canvas
wrapper that compiles a fixed shader pair, uploads a fixed triangle, and
redraws it each frame with a time uniform.

Host-environment and GPU nondeterminism (DOM lookups, object creation
success/failure, status flags, info logs) is modelled by an explicit
`HostEnv` record of oracles.  Every call into the GPU binding layer is
recorded in a trace of `GlCmd` values, so that claims about "which GPU calls
happen" are statements about the trace.  Rust `f32` values are modelled as
the exact rationals they denote; the one `f32` arithmetic operation in the
code (`time / 1000.0`) is modelled by IEEE-754 binary32
round-to-nearest-ties-to-even division on rationals.
-/

/-- A DOM element, as far as this program observes it: whether the dynamic
cast `dyn_into::<HtmlCanvasElement>()` succeeds, plus an identity tag. -/
structure Element where
  tag : Nat
  isCanvas : Bool
deriving DecidableEq

/-- The object returned by `canvas.get_context("webgl2")`, as far as this
program observes it: whether `dyn_into::<WebGl2RenderingContext>()`
succeeds, plus an identity tag. -/
structure ContextObj where
  tag : Nat
  isWebGl2 : Bool
deriving DecidableEq

/-- Opaque handle to a GPU shader object (`web_sys::WebGlShader`). -/
structure WebGlShader where
  id : Nat
deriving DecidableEq

/-- Opaque handle to a GPU program object (`web_sys::WebGlProgram`). -/
structure WebGlProgram where
  id : Nat
deriving DecidableEq

/-- Opaque handle to a GPU buffer object (`web_sys::WebGlBuffer`). -/
structure WebGlBuffer where
  id : Nat
deriving DecidableEq

/-- Opaque handle to a GPU vertex array object (`web_sys::WebGlVertexArrayObject`). -/
structure WebGlVao where
  id : Nat
deriving DecidableEq

/-- Opaque handle to a uniform location (`web_sys::WebGlUniformLocation`). -/
structure WebGlUniformLocation where
  id : Nat
deriving DecidableEq

/-- A JavaScript value as it appears in the error position of
`Result<_, JsValue>` in this program: a failed element cast returns the
element, a failed context cast returns the context object, a `&str` or
`String` error is converted by `?` into a JS string, and `get_context` may
throw an arbitrary host exception. -/
inductive JsVal where
  | elem (e : Element)
  | ctxObj (c : ContextObj)
  | str (s : String)
  | hostExn (code : Nat)
deriving DecidableEq

/-- WebGL2 API constants used by the program (numeric values are those of
the WebGL specification, as exposed by `web_sys::WebGl2RenderingContext`). -/
def GL_VERTEX_SHADER : Nat := 0x8B31
def GL_FRAGMENT_SHADER : Nat := 0x8B30
def GL_COMPILE_STATUS : Nat := 0x8B81
def GL_LINK_STATUS : Nat := 0x8B82
def GL_ARRAY_BUFFER : Nat := 0x8892
def GL_STATIC_DRAW : Nat := 0x88E4
def GL_FLOAT : Nat := 0x1406
def GL_TRIANGLES : Nat := 0x0004
def GL_COLOR_BUFFER_BIT : Nat := 0x4000

/-- One call into the GPU binding layer (`web_sys`), recorded in order.
Calls that allocate GPU objects are `createShaderCall`, `createProgramCall`,
`createBufferCall`, `createVertexArrayCall`. -/
inductive GlCmd where
  | createShaderCall (shaderType : Nat)
  | shaderSourceCall (s : WebGlShader) (src : String)
  | compileShaderCall (s : WebGlShader)
  | getShaderParameterCall (s : WebGlShader) (pname : Nat)
  | getShaderInfoLogCall (s : WebGlShader)
  | createProgramCall
  | attachShaderCall (p : WebGlProgram) (s : WebGlShader)
  | linkProgramCall (p : WebGlProgram)
  | getProgramParameterCall (p : WebGlProgram) (pname : Nat)
  | getProgramInfoLogCall (p : WebGlProgram)
  | useProgramCall (p : Option WebGlProgram)
  | getAttribLocationCall (p : WebGlProgram) (name : String)
  | createBufferCall
  | bindBufferCall (target : Nat) (b : Option WebGlBuffer)
  | bufferDataCall (target : Nat) (data : List ℚ) (usage : Nat)
  | createVertexArrayCall
  | bindVertexArrayCall (v : Option WebGlVao)
  | vertexAttribPointerCall (idx : Nat) (size : Int) (ty : Nat)
      (normalized : Bool) (stride : Int) (offset : Int)
  | enableVertexAttribArrayCall (idx : Nat)
  | getUniformLocationCall (p : WebGlProgram) (name : String)
  | clearColorCall (r g b a : ℚ)
  | clearCall (mask : Nat)
  | uniform1fCall (loc : Option WebGlUniformLocation) (v : ℚ)
  | drawArraysCall (mode : Nat) (first : Int) (count : Int)
deriving DecidableEq

/-- The host document plus GPU context behaviour, as oracles.  Each field
answers one kind of call the program makes; `Option` models JS `null`
returns, and `Option Bool` models `JsValue::as_bool` (`none` for a
non-boolean status value). -/
structure HostEnv where
  getElementById : String → Option Element
  getContext : Element → String → Except JsVal (Option ContextObj)
  createShader : Nat → Option WebGlShader
  getShaderCompileStatus : WebGlShader → Option Bool
  getShaderInfoLog : WebGlShader → Option String
  createProgram : Option WebGlProgram
  getProgramLinkStatus : WebGlProgram → Option Bool
  getProgramInfoLog : WebGlProgram → Option String
  getAttribLocation : WebGlProgram → String → Int
  createBuffer : Option WebGlBuffer
  createVertexArray : Option WebGlVao
  getUniformLocation : WebGlProgram → String → Option WebGlUniformLocation

/-- Outcome of running a Rust function that may panic or return
`Result::Err`: `panic` models `unwrap`/`expect` aborting the call (no value
of any kind is returned to the caller), `err` models `Err` propagated by
`?`, `ok` a normal return. -/
inductive RustOutcome (ε : Type) (α : Type) where
  | panic (msg : String)
  | err (e : ε)
  | ok (v : α)
deriving DecidableEq

/-- `compile_shader(context, shader_type, source)` from `graphics.rs`:
creates a shader object (error string `"Unable to create shader object"` if
creation returns `None`), sets the source, compiles, then returns the
handle when the `COMPILE_STATUS` parameter reads as boolean `true`
(`as_bool().unwrap_or(false)`); otherwise returns the info log, defaulting
to `"Unknown error creating shader"` when the log is `None`.  The first
component is the trace of GPU calls made. -/
def compile_shader (env : HostEnv) (shader_type : Nat) (source : String) :
    List GlCmd × Except String WebGlShader :=
  match env.createShader shader_type with
  | none => ([GlCmd.createShaderCall shader_type],
             Except.error "Unable to create shader object")
  | some shader =>
    let pre := [GlCmd.createShaderCall shader_type,
                GlCmd.shaderSourceCall shader source,
                GlCmd.compileShaderCall shader,
                GlCmd.getShaderParameterCall shader GL_COMPILE_STATUS]
    if (env.getShaderCompileStatus shader).getD false then
      (pre, Except.ok shader)
    else
      (pre ++ [GlCmd.getShaderInfoLogCall shader],
       Except.error ((env.getShaderInfoLog shader).getD
         "Unknown error creating shader"))

/-- `link_program(context, vert_shader, frag_shader)` from `graphics.rs`:
creates a program object (error string `"Unable to create shader object"`,
reused verbatim from the shader path, if creation returns `None`), attaches
both shaders, links, then returns the handle when the `LINK_STATUS`
parameter reads as boolean `true` (`as_bool().unwrap_or(false)`); otherwise
returns the info log, defaulting to `"Unknown error creating program
object"` when the log is `None`. -/
def link_program (env : HostEnv) (vert_shader frag_shader : WebGlShader) :
    List GlCmd × Except String WebGlProgram :=
  match env.createProgram with
  | none => ([GlCmd.createProgramCall],
             Except.error "Unable to create shader object")
  | some program =>
    let pre := [GlCmd.createProgramCall,
                GlCmd.attachShaderCall program vert_shader,
                GlCmd.attachShaderCall program frag_shader,
                GlCmd.linkProgramCall program,
                GlCmd.getProgramParameterCall program GL_LINK_STATUS]
    if (env.getProgramLinkStatus program).getD false then
      (pre, Except.ok program)
    else
      (pre ++ [GlCmd.getProgramInfoLogCall program],
       Except.error ((env.getProgramInfoLog program).getD
         "Unknown error creating program object"))

/-!  Exact model of IEEE-754 binary32 (Rust `f32`) rounding on rationals.
A finite `f32` value is identified with the rational it denotes; binary32
division of in-range operands is round-to-nearest-ties-to-even of the exact
rational quotient. -/

/-- Fuel-driven floor of `log2` (structural recursion, kernel-reducible). -/
def log2fuel : Nat → Nat → Nat
  | 0, _ => 0
  | fuel + 1, n => if n ≤ 1 then 0 else log2fuel fuel (n / 2) + 1

/-- Floor of `log2 n` for `n ≥ 1` (and `0` for `n = 0`). -/
def natLog2 (n : Nat) : Nat := log2fuel n n

/-- For `q > 0`, the unique `e : ℤ` with `2 ^ e ≤ q < 2 ^ (e + 1)`. -/
def qlog2 (q : ℚ) : ℤ :=
  let n := q.num.toNat
  let d := q.den
  let e0 : ℤ := (natLog2 n : ℤ) - (natLog2 d : ℤ)
  if 0 ≤ e0 then (if d * 2 ^ e0.toNat ≤ n then e0 else e0 - 1)
  else (if d ≤ n * 2 ^ (-e0).toNat then e0 else e0 - 1)

/-- Round a rational to the nearest integer, ties to even. -/
def rne (q : ℚ) : ℤ :=
  let f := q.floor
  let r := q - (f : ℚ)
  if r < 1 / 2 then f
  else if 1 / 2 < r then f + 1
  else if f % 2 = 0 then f else f + 1

/-- Multiply a rational by an integer power of two. -/
def mulPow2 (q : ℚ) (s : ℤ) : ℚ :=
  if 0 ≤ s then q * ((2 : ℚ)) ^ s.toNat else q / ((2 : ℚ)) ^ (-s).toNat

/-- Round a positive rational to the binary32 grid (normal numbers keep a
24-bit significand; exponents below `-126` are flushed to the subnormal
grid of step `2 ^ (-149)`). -/
def roundF32pos (q : ℚ) : ℚ :=
  let s : ℤ := 23 - max (qlog2 q) (-126)
  mulPow2 ((rne (mulPow2 q s) : ℤ) : ℚ) (-s)

/-- Round-to-nearest-ties-to-even of a rational to the binary32 grid. -/
def roundF32 (q : ℚ) : ℚ :=
  if q < 0 then -roundF32pos (-q) else if q = 0 then 0 else roundF32pos q

/-- IEEE-754 binary32 division of finite in-range values, as performed by
Rust `f32` division: the correctly rounded exact quotient. -/
def f32div (a b : ℚ) : ℚ := roundF32 (a / b)

/-- The vertex shader source literal from `WebGlCanvas::new`
(braces written as escapes). -/
def VERT_SHADER_SOURCE : String :=
  "#version 300 es\n \n        in vec2 position;\n    \n        out vec2 Position;\n    \n        void main()\n        \x7b\n          gl_Position = vec4(position, 0.0, 1.0);\n        \x7d\n        "

/-- The fragment shader source literal from `WebGlCanvas::new`
(braces written as escapes). -/
def FRAG_SHADER_SOURCE : String :=
  "#version 300 es\n        precision highp float;\n\n        uniform float u_time;\n        \n        in vec2 Position;\n    \n        out vec4 outColor;\n    \n        void main()\n        \x7b\n          float x = Position.x;\n          float y = Position.y;\n          vec3 modColour = (0.5*sin(u_time + x*y)+0.5)*vec3(1.0, 1.0, 1.0);\n          outColor = vec4(modColour, 1.0);\n        \x7d\n        "

/-- The fixed vertex array `[0.0, 0.5, 0.5, -0.5, -0.5, -0.5] : [f32; 6]`
built in `WebGlCanvas::new` (all six values are exactly representable). -/
def fixedVertices : List ℚ := [0, 1 / 2, 1 / 2, -1 / 2, -1 / 2, -1 / 2]

/-- Rust `i as u32` on an `i32` value: two's-complement reinterpretation,
i.e. reduction modulo `2 ^ 32`. -/
def u32_of_i32 (i : Int) : Nat := (i % (2 ^ 32 : Int)).toNat

/-- The CPU-side `WebGlCanvas` struct from `graphics.rs`. -/
structure WebGlCanvas where
  canvas : Element
  context : ContextObj
  vert_shader : WebGlShader
  frag_shader : WebGlShader
  program : WebGlProgram
  vertices : List ℚ
deriving DecidableEq

/-- `WebGlCanvas::new(canvas_id)` from `graphics.rs`, in state-passing
style over `HostEnv`.  Returns the trace of GPU calls made together with
the Rust outcome: a panic (from `unwrap()` on a missing element or a `null`
context), a propagated `Err` (from a failed cast via `?`, a shader/link
error string, or a failed buffer/VAO allocation), or the fully constructed
struct. -/
def WebGlCanvas.new (env : HostEnv) (canvas_id : String) :
    List GlCmd × RustOutcome JsVal WebGlCanvas :=
  match env.getElementById canvas_id with
  | none => ([], RustOutcome.panic "called `Option::unwrap()` on a `None` value")
  | some element =>
    if element.isCanvas = false then
      ([], RustOutcome.err (JsVal.elem element))
    else
      match env.getContext element "webgl2" with
      | Except.error e => ([], RustOutcome.err e)
      | Except.ok none =>
          ([], RustOutcome.panic "called `Option::unwrap()` on a `None` value")
      | Except.ok (some ctx) =>
        if ctx.isWebGl2 = false then
          ([], RustOutcome.err (JsVal.ctxObj ctx))
        else
          let vres := compile_shader env GL_VERTEX_SHADER VERT_SHADER_SOURCE
          match vres.2 with
          | Except.error msg => (vres.1, RustOutcome.err (JsVal.str msg))
          | Except.ok vshader =>
            let fres := compile_shader env GL_FRAGMENT_SHADER FRAG_SHADER_SOURCE
            match fres.2 with
            | Except.error msg => (vres.1 ++ fres.1, RustOutcome.err (JsVal.str msg))
            | Except.ok fshader =>
              let lres := link_program env vshader fshader
              match lres.2 with
              | Except.error msg =>
                  (vres.1 ++ fres.1 ++ lres.1, RustOutcome.err (JsVal.str msg))
              | Except.ok program =>
                let loc := env.getAttribLocation program "position"
                let pre := vres.1 ++ fres.1 ++ lres.1 ++
                  [GlCmd.useProgramCall (some program),
                   GlCmd.getAttribLocationCall program "position",
                   GlCmd.createBufferCall]
                match env.createBuffer with
                | none => (pre, RustOutcome.err (JsVal.str "Failed to create buffer"))
                | some buffer =>
                  let pre := pre ++
                    [GlCmd.bindBufferCall GL_ARRAY_BUFFER (some buffer),
                     GlCmd.bufferDataCall GL_ARRAY_BUFFER fixedVertices GL_STATIC_DRAW,
                     GlCmd.createVertexArrayCall]
                  match env.createVertexArray with
                  | none =>
                      (pre, RustOutcome.err (JsVal.str "Could not create vertex array object"))
                  | some vao =>
                    (pre ++
                      [GlCmd.bindVertexArrayCall (some vao),
                       GlCmd.vertexAttribPointerCall (u32_of_i32 loc) 2 GL_FLOAT false 0 0,
                       GlCmd.enableVertexAttribArrayCall (u32_of_i32 loc),
                       GlCmd.bindVertexArrayCall (some vao)],
                     RustOutcome.ok
                       { canvas := element, context := ctx, vert_shader := vshader,
                         frag_shader := fshader, program := program,
                         vertices := fixedVertices })

/-- Outcome of `WebGlCanvas::render`: either the `expect` panic (with the
GPU calls made up to that point) or a normal `()` return with the full
trace.  There is no error variant: `render` returns `()` in Rust and cannot
signal failure by a return value. -/
inductive RenderResult where
  | panic (msg : String) (trace : List GlCmd)
  | ok (trace : List GlCmd)
deriving DecidableEq

/-- `WebGlCanvas::render(&self, time)` from `graphics.rs`, in state-passing
style: the first component is the (unchanged, since the receiver is
`&self`) struct, the second the outcome.  Looks up the `u_time` uniform
(`expect` panics when absent), clears to opaque black, sets the uniform to
`time / 1000.0` in `f32`, and draws `vertices.len() / 2` vertices as
triangles. -/
def WebGlCanvas.render (env : HostEnv) (self : WebGlCanvas) (time : ℚ) :
    WebGlCanvas × RenderResult :=
  match env.getUniformLocation self.program "u_time" with
  | none =>
      (self, RenderResult.panic "WebGL program should have `u_time` uniform."
        [GlCmd.getUniformLocationCall self.program "u_time"])
  | some time_location =>
    let vert_count : Int := ((self.vertices.length / 2 : Nat) : Int)
    (self, RenderResult.ok
      [GlCmd.getUniformLocationCall self.program "u_time",
       GlCmd.clearColorCall 0 0 0 1,
       GlCmd.clearCall GL_COLOR_BUFFER_BIT,
       GlCmd.uniform1fCall (some time_location) (f32div time 1000),
       GlCmd.drawArraysCall GL_TRIANGLES 0 vert_count])

/-- The GPU-call trace of a render outcome (for a panic, the calls made
before the panic). -/
def RenderResult.trace : RenderResult → List GlCmd
  | RenderResult.panic _ tr => tr
  | RenderResult.ok tr => tr

/-- The values passed to `uniform1f`, in order, in a trace. -/
def uniformValuesSet : List GlCmd → List ℚ
  | [] => []
  | GlCmd.uniform1fCall _ v :: rest => v :: uniformValuesSet rest
  | _ :: rest => uniformValuesSet rest

/-- All the construction steps of `WebGlCanvas::new` that can fail, as a
predicate on the environment: the element resolves and is a canvas, the
`webgl2` context is returned and casts, both shaders are created and
compile with a boolean-`true` status, the program is created and links with
a boolean-`true` status, and buffer and vertex-array creation succeed. -/
def constructionStepsSucceed (env : HostEnv) (canvas_id : String) : Prop :=
  ∃ el ctx vs fs p,
    env.getElementById canvas_id = some el ∧ el.isCanvas = true ∧
    env.getContext el "webgl2" = Except.ok (some ctx) ∧ ctx.isWebGl2 = true ∧
    env.createShader GL_VERTEX_SHADER = some vs ∧
    (env.getShaderCompileStatus vs).getD false = true ∧
    env.createShader GL_FRAGMENT_SHADER = some fs ∧
    (env.getShaderCompileStatus fs).getD false = true ∧
    env.createProgram = some p ∧
    (env.getProgramLinkStatus p).getD false = true ∧
    (∃ b, env.createBuffer = some b) ∧ (∃ v, env.createVertexArray = some v)

/-- Concrete canvas element used by the witness environments. -/
def elW : Element := { tag := 0, isCanvas := true }

/-- Concrete WebGL2 context object used by the witness environments. -/
def ctxW : ContextObj := { tag := 0, isWebGl2 := true }

/-- A host environment in which every construction step succeeds, the
`"position"` attribute is reported at location 0, and the `u_time` uniform
is found. -/
def envW : HostEnv where
  getElementById := fun id => if id = "canvas" then some elW else none
  getContext := fun _ kind =>
    if kind = "webgl2" then Except.ok (some ctxW) else Except.ok none
  createShader := fun ty => if ty = GL_VERTEX_SHADER then some ⟨1⟩ else some ⟨2⟩
  getShaderCompileStatus := fun _ => some true
  getShaderInfoLog := fun _ => none
  createProgram := some ⟨1⟩
  getProgramLinkStatus := fun _ => some true
  getProgramInfoLog := fun _ => none
  getAttribLocation := fun _ _ => 0
  createBuffer := some ⟨1⟩
  createVertexArray := some ⟨1⟩
  getUniformLocation := fun _ name => if name = "u_time" then some ⟨0⟩ else none

/-- The struct value `WebGlCanvas::new(envW, "canvas")` constructs. -/
def cW : WebGlCanvas :=
  { canvas := elW, context := ctxW, vert_shader := ⟨1⟩, frag_shader := ⟨2⟩,
    program := ⟨1⟩, vertices := fixedVertices }

/-- The GPU-call trace of the successful construction in `envW`. -/
def newTraceW : List GlCmd := (WebGlCanvas.new envW "canvas").1

/-- Like `envW` but no element resolves for any identifier. -/
def envNoElem : HostEnv := { envW with getElementById := fun _ => none }

/-- Like `envW` but the identifier resolves to a non-canvas element. -/
def envNotCanvas : HostEnv :=
  { envW with getElementById := fun _ => some { tag := 7, isCanvas := false } }

/-- Like `envW` but the `"position"` attribute is reported at location 1. -/
def envLoc1 : HostEnv := { envW with getAttribLocation := fun _ _ => 1 }

/-- Like `envW` but no uniform location is ever found. -/
def envNoUniform : HostEnv := { envW with getUniformLocation := fun _ _ => none }

/-- Like `envW` but shader-object creation fails. -/
def envNoShader : HostEnv := { envW with createShader := fun _ => none }

/-- Like `envW` but compilation reports a boolean-`false` status and a log. -/
def envBadCompile : HostEnv :=
  { envW with getShaderCompileStatus := fun _ => some false,
              getShaderInfoLog := fun _ => some "bad shader" }

/-- Like `envW` but the compile status reads as a non-boolean and there is
no info log. -/
def envNonBoolStatus : HostEnv :=
  { envW with getShaderCompileStatus := fun _ => none,
              getShaderInfoLog := fun _ => none }

/-- Like `envW` but program-object creation fails. -/
def envNoProgram : HostEnv := { envW with createProgram := none }

/-- Like `envW` but linking reports a boolean-`false` status and a log. -/
def envBadLink : HostEnv :=
  { envW with getProgramLinkStatus := fun _ => some false,
              getProgramInfoLog := fun _ => some "bad link" }

/-- Like `envW` but the link status reads as a non-boolean and there is no
info log. -/
def envNonBoolLink : HostEnv :=
  { envW with getProgramLinkStatus := fun _ => none,
              getProgramInfoLog := fun _ => none }

/-- Like `envW` but buffer-object creation fails. -/
def envNoBuffer : HostEnv := { envW with createBuffer := none }

/-- Like `envW` but vertex-array-object creation fails. -/
def envNoVao : HostEnv := { envW with createVertexArray := none }

/-- Like `envW` but `get_context` throws a host exception. -/
def envCtxErr : HostEnv :=
  { envW with getContext := fun _ _ => Except.error (JsVal.hostExn 3) }

/-- Like `envW` but `get_context` returns `null`. -/
def envCtxNone : HostEnv := { envW with getContext := fun _ _ => Except.ok none }

/-- Like `envW` but the returned context object is not a WebGL2 context. -/
def envCtxNotGl2 : HostEnv :=
  { envW with getContext := fun _ _ => Except.ok (some { tag := 9, isWebGl2 := false }) }

/-- Like `envW` but fragment-shader-object creation fails (vertex succeeds). -/
def envFragFail : HostEnv :=
  { envW with createShader := fun ty => if ty = GL_VERTEX_SHADER then some ⟨1⟩ else none }

/-!  Helper lemmas characterising the embedded functions. -/

/-- If shader creation succeeds and the compile status reads as boolean
`true`, `compile_shader` returns the handle. -/
theorem compile_shader_ok (env : HostEnv) (ty : Nat) (src : String) (s : WebGlShader)
    (h1 : env.createShader ty = some s)
    (h2 : (env.getShaderCompileStatus s).getD false = true) :
    (compile_shader env ty src).2 = Except.ok s := by
  unfold compile_shader; rw [h1]; simp [h2]

/-- If program creation succeeds and the link status reads as boolean
`true`, `link_program` returns the handle. -/
theorem link_program_ok (env : HostEnv) (vs fs : WebGlShader) (p : WebGlProgram)
    (h1 : env.createProgram = some p)
    (h2 : (env.getProgramLinkStatus p).getD false = true) :
    (link_program env vs fs).2 = Except.ok p := by
  unfold link_program; rw [h1]; simp [h2]

/-- A successful `compile_shader` means creation succeeded and the status
read as boolean `true`. -/
theorem compile_shader_ok_inv (env : HostEnv) (ty : Nat) (src : String) (s : WebGlShader)
    (h : (compile_shader env ty src).2 = Except.ok s) :
    env.createShader ty = some s ∧ (env.getShaderCompileStatus s).getD false = true := by
  unfold compile_shader at h
  rcases hc : env.createShader ty with _ | s'
  · simp [hc] at h
  simp only [hc] at h
  by_cases hs : (env.getShaderCompileStatus s').getD false = true
  · simp [hs] at h
    subst h; exact ⟨rfl, hs⟩
  · simp [hs] at h

/-- A successful `link_program` means creation succeeded and the status
read as boolean `true`. -/
theorem link_program_ok_inv (env : HostEnv) (vs fs : WebGlShader) (p : WebGlProgram)
    (h : (link_program env vs fs).2 = Except.ok p) :
    env.createProgram = some p ∧ (env.getProgramLinkStatus p).getD false = true := by
  unfold link_program at h
  rcases hc : env.createProgram with _ | p'
  · simp [hc] at h
  simp only [hc] at h
  by_cases hs : (env.getProgramLinkStatus p').getD false = true
  · simp [hs] at h
    subst h; exact ⟨rfl, hs⟩
  · simp [hs] at h

/-- Inversion of a successful construction: the struct's vertex array is
the fixed one, the trace configures and enables the vertex attribute at the
queried (cast) `"position"` location and uploads the fixed vertex data, and
every construction step succeeded. -/
theorem new_ok_spec (env : HostEnv) (id : String) (tr : List GlCmd) (c : WebGlCanvas)
    (h : WebGlCanvas.new env id = (tr, RustOutcome.ok c)) :
    c.vertices = fixedVertices ∧
    GlCmd.vertexAttribPointerCall (u32_of_i32 (env.getAttribLocation c.program "position"))
      2 GL_FLOAT false 0 0 ∈ tr ∧
    GlCmd.enableVertexAttribArrayCall
      (u32_of_i32 (env.getAttribLocation c.program "position")) ∈ tr ∧
    GlCmd.bufferDataCall GL_ARRAY_BUFFER fixedVertices GL_STATIC_DRAW ∈ tr ∧
    constructionStepsSucceed env id := by
  unfold WebGlCanvas.new at h
  rcases h1 : env.getElementById id with _ | el
  · simp [h1] at h
  simp only [h1] at h
  by_cases h2 : el.isCanvas = false
  · simp [h2] at h
  simp only [eq_false_of_ne_true, Bool.not_eq_false] at h2
  simp only [h2] at h
  rcases h3 : env.getContext el "webgl2" with e | co
  · simp [h3] at h
  rcases co with _ | ctx
  · simp [h3] at h
  simp only [h3] at h
  by_cases h4 : ctx.isWebGl2 = false
  · simp [h4] at h
  simp only [Bool.not_eq_false] at h4
  simp only [h4] at h
  rcases h5 : (compile_shader env GL_VERTEX_SHADER VERT_SHADER_SOURCE).2 with msg | vs
  · simp [h5] at h
  simp only [h5] at h
  rcases h6 : (compile_shader env GL_FRAGMENT_SHADER FRAG_SHADER_SOURCE).2 with msg | fs
  · simp [h6] at h
  simp only [h6] at h
  rcases h7 : (link_program env vs fs).2 with msg | p
  · simp [h7] at h
  simp only [h7] at h
  rcases h8 : env.createBuffer with _ | b
  · simp [h8] at h
  simp only [h8] at h
  rcases h9 : env.createVertexArray with _ | v
  · simp [h9] at h
  simp only [h9] at h
  obtain ⟨htr, hc⟩ := Prod.mk.injEq _ _ _ _ |>.mp h
  injection hc with hc2
  subst hc2
  subst htr
  obtain ⟨hvs, hvst⟩ := compile_shader_ok_inv env _ _ _ h5
  obtain ⟨hfs, hfst⟩ := compile_shader_ok_inv env _ _ _ h6
  obtain ⟨hp, hpst⟩ := link_program_ok_inv env _ _ _ h7
  refine ⟨rfl, ?_, ?_, ?_, ?_⟩
  · simp [List.mem_append]
  · simp [List.mem_append]
  · simp [List.mem_append]
  · exact ⟨el, ctx, vs, fs, p, h1, h2, h3, h4, hvs, hvst, hfs, hfst, hp, hpst, ⟨b, h8⟩, ⟨v, h9⟩⟩

/-- If every construction step succeeds, `WebGlCanvas::new` returns a
constructed value. -/
theorem new_ok_of_steps (env : HostEnv) (id : String)
    (h : constructionStepsSucceed env id) :
    ∃ tr c, WebGlCanvas.new env id = (tr, RustOutcome.ok c) := by
  obtain ⟨el, ctx, vs, fs, p, h1, h2, h3, h4, hvs, hvst, hfs, hfst, hp, hpst, ⟨b, h8⟩, ⟨v, h9⟩⟩ := h
  have hsnd : (WebGlCanvas.new env id).2 =
      RustOutcome.ok ⟨el, ctx, vs, fs, p, fixedVertices⟩ := by
    unfold WebGlCanvas.new
    simp [h1, h2, h3, h4, compile_shader_ok env _ _ _ hvs hvst,
      compile_shader_ok env _ _ _ hfs hfst, link_program_ok env _ _ _ hp hpst, h8, h9]
  exact ⟨(WebGlCanvas.new env id).1, ⟨el, ctx, vs, fs, p, fixedVertices⟩, by rw [← hsnd]⟩

/-- `render` takes `&self` and cannot mutate the struct: the state-passing
embedding returns the receiver unchanged. -/
theorem render_fst (env : HostEnv) (c : WebGlCanvas) (t : ℚ) :
    (WebGlCanvas.render env c t).1 = c := by
  unfold WebGlCanvas.render
  rcases hl : env.getUniformLocation c.program "u_time" with _ | loc <;> simp [hl]

/-- C6: `compile_shader` returns `"Unable to create shader object"` when
shader-object creation fails; otherwise it returns the shader handle iff
the compile-status flag reads as boolean `true`, and on a false or
non-boolean status it returns the GPU-provided info log, defaulting to
`"Unknown error creating shader"` when the log is absent. -/
theorem compile_shader_error_spec (env : HostEnv) (ty : Nat) (src : String) :
    (env.createShader ty = none →
       (compile_shader env ty src).2 = Except.error "Unable to create shader object") ∧
    (∀ s, env.createShader ty = some s →
       ((env.getShaderCompileStatus s = some true →
           (compile_shader env ty src).2 = Except.ok s) ∧
        (env.getShaderCompileStatus s ≠ some true →
           (compile_shader env ty src).2 =
             Except.error ((env.getShaderInfoLog s).getD "Unknown error creating shader")) ∧
        (∀ s2, (compile_shader env ty src).2 = Except.ok s2 →
           s2 = s ∧ env.getShaderCompileStatus s = some true))) := by
  constructor
  · intro hc
    unfold compile_shader
    rw [hc]
  · intro s hc
    refine ⟨?_, ?_, ?_⟩
    · intro hst
      unfold compile_shader
      rw [hc]
      simp [hst]
    · intro hst
      unfold compile_shader
      rw [hc]
      rcases hq : env.getShaderCompileStatus s with _ | b
      · simp [hq]
      · rcases b
        · simp [hq]
        · exact absurd hq hst
    · intro s2 h2
      obtain ⟨hc2, hst2⟩ := compile_shader_ok_inv env ty src s2 h2
      rw [hc] at hc2
      injection hc2 with hc3
      refine ⟨hc3.symm, ?_⟩
      rw [← hc3] at hst2
      rcases hq : env.getShaderCompileStatus s with _ | b
      · rw [hq] at hst2; simp at hst2
      · rw [hq] at hst2; simp at hst2; subst hst2; rfl

/-- Witness for C6: the four `compile_shader` outcomes at concrete
environments. -/
theorem compile_shader_error_spec_witness :
    (compile_shader envNoShader GL_VERTEX_SHADER VERT_SHADER_SOURCE).2 =
        Except.error "Unable to create shader object" ∧
    (compile_shader envW GL_VERTEX_SHADER VERT_SHADER_SOURCE).2 = Except.ok ⟨1⟩ ∧
    (compile_shader envBadCompile GL_VERTEX_SHADER VERT_SHADER_SOURCE).2 =
        Except.error "bad shader" ∧
    (compile_shader envNonBoolStatus GL_VERTEX_SHADER VERT_SHADER_SOURCE).2 =
        Except.error "Unknown error creating shader" := by
  refine ⟨(compile_shader_error_spec envNoShader GL_VERTEX_SHADER VERT_SHADER_SOURCE).1 rfl,
    (((compile_shader_error_spec envW GL_VERTEX_SHADER VERT_SHADER_SOURCE).2 ⟨1⟩ rfl).1 rfl),
    (((compile_shader_error_spec envBadCompile GL_VERTEX_SHADER VERT_SHADER_SOURCE).2 ⟨1⟩ rfl).2.1
      (by decide)).trans rfl,
    (((compile_shader_error_spec envNonBoolStatus GL_VERTEX_SHADER VERT_SHADER_SOURCE).2 ⟨1⟩ rfl).2.1
      (by decide)).trans rfl⟩

/-- C7: `link_program` returns the (reused, mislabeled)
`"Unable to create shader object"` message when program-object creation
fails; otherwise it returns the program handle iff the link-status flag
reads as boolean `true`, and on a false or non-boolean status it returns
the GPU-provided info log, defaulting to
`"Unknown error creating program object"` when the log is absent. -/
theorem link_program_error_spec (env : HostEnv) (vs fs : WebGlShader) :
    (env.createProgram = none →
       (link_program env vs fs).2 = Except.error "Unable to create shader object") ∧
    (∀ p, env.createProgram = some p →
       ((env.getProgramLinkStatus p = some true →
           (link_program env vs fs).2 = Except.ok p) ∧
        (env.getProgramLinkStatus p ≠ some true →
           (link_program env vs fs).2 =
             Except.error ((env.getProgramInfoLog p).getD "Unknown error creating program object")) ∧
        (∀ p2, (link_program env vs fs).2 = Except.ok p2 →
           p2 = p ∧ env.getProgramLinkStatus p = some true))) := by
  constructor
  · intro hc
    unfold link_program
    rw [hc]
  · intro p hc
    refine ⟨?_, ?_, ?_⟩
    · intro hst
      unfold link_program
      rw [hc]
      simp [hst]
    · intro hst
      unfold link_program
      rw [hc]
      rcases hq : env.getProgramLinkStatus p with _ | b
      · simp [hq]
      · rcases b
        · simp [hq]
        · exact absurd hq hst
    · intro p2 h2
      obtain ⟨hc2, hst2⟩ := link_program_ok_inv env vs fs p2 h2
      rw [hc] at hc2
      injection hc2 with hc3
      refine ⟨hc3.symm, ?_⟩
      rw [← hc3] at hst2
      rcases hq : env.getProgramLinkStatus p with _ | b
      · rw [hq] at hst2; simp at hst2
      · rw [hq] at hst2; simp at hst2; subst hst2; rfl

/-- Witness for C7: the four `link_program` outcomes at concrete
environments. -/
theorem link_program_error_spec_witness :
    (link_program envNoProgram ⟨1⟩ ⟨2⟩).2 =
        Except.error "Unable to create shader object" ∧
    (link_program envW ⟨1⟩ ⟨2⟩).2 = Except.ok ⟨1⟩ ∧
    (link_program envBadLink ⟨1⟩ ⟨2⟩).2 = Except.error "bad link" ∧
    (link_program envNonBoolLink ⟨1⟩ ⟨2⟩).2 =
        Except.error "Unknown error creating program object" := by
  refine ⟨(link_program_error_spec envNoProgram ⟨1⟩ ⟨2⟩).1 rfl,
    (((link_program_error_spec envW ⟨1⟩ ⟨2⟩).2 ⟨1⟩ rfl).1 rfl),
    (((link_program_error_spec envBadLink ⟨1⟩ ⟨2⟩).2 ⟨1⟩ rfl).2.1 (by decide)).trans rfl,
    (((link_program_error_spec envNonBoolLink ⟨1⟩ ⟨2⟩).2 ⟨1⟩ rfl).2.1 (by decide)).trans rfl⟩

/-- C2: for every time value `t`, `render(t)` sets the `u_time` uniform to
exactly `t / 1000.0` computed in single-precision (32-bit) floating point;
in particular the division maps `0` to `0`, `1000` to `1`, and `2500` to
`2.5`. -/
theorem render_sets_u_time_div1000 (env : HostEnv) (c : WebGlCanvas) (t : ℚ)
    (loc : WebGlUniformLocation)
    (h : env.getUniformLocation c.program "u_time" = some loc) :
    uniformValuesSet ((WebGlCanvas.render env c t).2).trace = [f32div t 1000] ∧
    f32div 0 1000 = 0 ∧ f32div 1000 1000 = 1 ∧ f32div 2500 1000 = 5 / 2 := by
  refine ⟨?_, ?_, ?_, ?_⟩
  · unfold WebGlCanvas.render
    simp only [h]
    rfl
  · with_unfolding_all rfl
  · with_unfolding_all rfl
  · with_unfolding_all rfl

/-- Witness for C2: in the all-success environment, `render(2500)` sets the
uniform to exactly `5/2`. -/
theorem render_sets_u_time_div1000_witness :
    uniformValuesSet ((WebGlCanvas.render envW cW 2500).2).trace = [5 / 2] ∧
    f32div 0 1000 = 0 ∧ f32div 1000 1000 = 1 ∧ f32div 2500 1000 = 5 / 2 := by
  obtain ⟨h1, h2, h3, h4⟩ := render_sets_u_time_div1000 envW cW 2500 ⟨0⟩ rfl
  exact ⟨h1.trans (by with_unfolding_all rfl), h2, h3, h4⟩

/-- C3: for every constructed canvas and every time value `t`, any draw
call issued by `render(t)` is a triangle-list draw of exactly
`vertices.len() / 2 = 3` vertices, independent of `t`, and when the uniform
lookup succeeds that draw call is issued. -/
theorem render_draws_three_vertices (env : HostEnv) (id : String) (tr : List GlCmd)
    (c : WebGlCanvas) (h : WebGlCanvas.new env id = (tr, RustOutcome.ok c))
    (env2 : HostEnv) (t : ℚ) :
    c.vertices.length / 2 = 3 ∧
    (∀ mode first count,
       GlCmd.drawArraysCall mode first count ∈ ((WebGlCanvas.render env2 c t).2).trace →
       mode = GL_TRIANGLES ∧ first = 0 ∧ count = ((c.vertices.length / 2 : Nat) : Int) ∧ count = 3) ∧
    (∀ loc, env2.getUniformLocation c.program "u_time" = some loc →
       GlCmd.drawArraysCall GL_TRIANGLES 0 3 ∈ ((WebGlCanvas.render env2 c t).2).trace) := by
  have hv : c.vertices = fixedVertices := (new_ok_spec env id tr c h).1
  have hlen : c.vertices.length / 2 = 3 := by rw [hv]; rfl
  refine ⟨hlen, ?_, ?_⟩
  · intro mode first count hmem
    unfold WebGlCanvas.render at hmem
    rcases hl : env2.getUniformLocation c.program "u_time" with _ | loc
    · rw [hl] at hmem
      simp [RenderResult.trace] at hmem
    · rw [hl] at hmem
      simp [RenderResult.trace] at hmem
      obtain ⟨hm, hf, hc2⟩ := hmem
      subst hm; subst hf; subst hc2
      refine ⟨rfl, rfl, rfl, ?_⟩
      rw [hv]
      rfl
  · intro loc hl
    unfold WebGlCanvas.render
    rw [hl]
    simp [RenderResult.trace, hlen]

/-- Witness for C3: in the all-success environment the constructed canvas
draws 3 vertices as triangles. -/
theorem render_draws_three_vertices_witness :
    cW.vertices.length / 2 = 3 ∧
    GlCmd.drawArraysCall GL_TRIANGLES 0 3 ∈ ((WebGlCanvas.render envW cW 0).2).trace := by
  obtain ⟨h1, _, h3⟩ := render_draws_three_vertices envW "canvas" newTraceW cW
    (by with_unfolding_all rfl) envW 0
  exact ⟨h1, h3 ⟨0⟩ rfl⟩

/-- C4: `render` never mutates the CPU-side struct: folding any sequence of
render calls over a constructed canvas leaves every field unchanged, the
constructed vertex array is the fixed 6-float triangle
`(0, 0.5), (0.5, -0.5), (-0.5, -0.5)`, and no render call ever issues a
buffer-data upload (the vertex data is write-once). -/
theorem render_never_mutates_canvas (env : HostEnv) (id : String) (tr : List GlCmd)
    (c : WebGlCanvas) (h : WebGlCanvas.new env id = (tr, RustOutcome.ok c))
    (calls : List (HostEnv × ℚ)) :
    calls.foldl (fun s pr => (WebGlCanvas.render pr.1 s pr.2).1) c = c ∧
    c.vertices = fixedVertices ∧
    fixedVertices = [0, 1 / 2, 1 / 2, -1 / 2, -1 / 2, -1 / 2] ∧
    fixedVertices.length = 6 ∧
    (∀ env2 t target data usage,
       GlCmd.bufferDataCall target data usage ∉ ((WebGlCanvas.render env2 c t).2).trace) := by
  refine ⟨?_, (new_ok_spec env id tr c h).1, rfl, rfl, ?_⟩
  · induction calls with
    | nil => rfl
    | cons hd tl ih =>
        simpa only [List.foldl_cons, render_fst] using ih
  · intro env2 t target data usage hmem
    unfold WebGlCanvas.render at hmem
    rcases hl : env2.getUniformLocation c.program "u_time" with _ | loc <;> rw [hl] at hmem <;>
      simp [RenderResult.trace] at hmem

/-- Witness for C4: three renders with strictly increasing times leave the
constructed canvas unchanged and upload no buffer data. -/
theorem render_never_mutates_canvas_witness :
    [(envW, (0 : ℚ)), (envW, 1000), (envW, 2500)].foldl
        (fun s pr => (WebGlCanvas.render pr.1 s pr.2).1) cW = cW ∧
    cW.vertices = fixedVertices ∧
    GlCmd.bufferDataCall GL_ARRAY_BUFFER fixedVertices GL_STATIC_DRAW ∉
      ((WebGlCanvas.render envW cW 0).2).trace := by
  obtain ⟨h1, h2, _, _, h5⟩ := render_never_mutates_canvas envW "canvas" newTraceW cW
    (by with_unfolding_all rfl) [(envW, 0), (envW, 1000), (envW, 2500)]
  exact ⟨h1, h2, h5 envW 0 GL_ARRAY_BUFFER fixedVertices GL_STATIC_DRAW⟩

/-- C5: when the `u_time` uniform location lookup returns no location,
`render` panics (the `expect` aborts) rather than returning; and `render`'s
outcome is always either a panic or a plain `()` return with a trace — it
has no error return value. -/
theorem render_missing_uniform_fatal (env : HostEnv) (c : WebGlCanvas) (t : ℚ) :
    (env.getUniformLocation c.program "u_time" = none →
       (WebGlCanvas.render env c t).2 =
         RenderResult.panic "WebGL program should have `u_time` uniform."
           [GlCmd.getUniformLocationCall c.program "u_time"]) ∧
    ((∃ msg tr2, (WebGlCanvas.render env c t).2 = RenderResult.panic msg tr2) ∨
     (∃ tr2, (WebGlCanvas.render env c t).2 = RenderResult.ok tr2)) := by
  constructor
  · intro hl
    unfold WebGlCanvas.render
    rw [hl]
  · rcases hr : (WebGlCanvas.render env c t).2 with ⟨msg, tr2⟩ | tr2
    · exact Or.inl ⟨msg, tr2, rfl⟩
    · exact Or.inr ⟨tr2, rfl⟩

/-- Witness for C5: in an environment with no uniform locations, `render`
panics with the `expect` message. -/
theorem render_missing_uniform_fatal_witness :
    (WebGlCanvas.render envNoUniform cW 0).2 =
      RenderResult.panic "WebGL program should have `u_time` uniform."
        [GlCmd.getUniformLocationCall cW.program "u_time"] :=
  (render_missing_uniform_fatal envNoUniform cW 0).1 rfl

/-- C1 (amended): when the identifier resolves to no element,
`WebGlCanvas::new` panics (the `unwrap`) instead of returning an error;
when it resolves to a non-canvas element, `new` returns the failed-cast
error carrying that element; in both cases the GPU-call trace is empty (no
GPU allocation is performed). -/
theorem new_surface_failure (env : HostEnv) (id : String) :
    (env.getElementById id = none →
       WebGlCanvas.new env id =
         ([], RustOutcome.panic "called `Option::unwrap()` on a `None` value")) ∧
    (∀ el, env.getElementById id = some el → el.isCanvas = false →
       WebGlCanvas.new env id = ([], RustOutcome.err (JsVal.elem el))) := by
  constructor
  · intro h1
    unfold WebGlCanvas.new
    rw [h1]
  · intro el h1 h2
    unfold WebGlCanvas.new
    rw [h1]
    simp [h2]

/-- Witness for C1: the two surface-resolution failures at concrete
environments, both with an empty GPU trace. -/
theorem new_surface_failure_witness :
    WebGlCanvas.new envNoElem "canvas" =
      ([], RustOutcome.panic "called `Option::unwrap()` on a `None` value") ∧
    WebGlCanvas.new envNotCanvas "canvas" =
      ([], RustOutcome.err (JsVal.elem { tag := 7, isCanvas := false })) :=
  ⟨(new_surface_failure envNoElem "canvas").1 rfl,
   (new_surface_failure envNotCanvas "canvas").2 { tag := 7, isCanvas := false } rfl rfl⟩

/-- C1 counterexample: for an identifier that resolves to no surface, `new`
does not return a `SurfaceNotFound` (or any) error to the caller — it
panics.  The trace is empty, so the no-GPU-allocation half of the claim
does hold. -/
theorem new_absent_returns_no_error_cex :
    envNoElem.getElementById "nope" = none ∧
    (WebGlCanvas.new envNoElem "nope").1 = [] ∧
    (∀ e, (WebGlCanvas.new envNoElem "nope").2 ≠ RustOutcome.err e) := by
  refine ⟨rfl, by with_unfolding_all rfl, ?_⟩
  intro e hx
  rw [(by with_unfolding_all rfl :
    (WebGlCanvas.new envNoElem "nope").2 =
      RustOutcome.panic "called `Option::unwrap()` on a `None` value")] at hx
  simp at hx

/-- C8 (amended): a constructed value is returned iff every construction
step succeeds; an absent element or a `null` context makes `new` panic
(returning nothing), while every other failing step propagates that step's
specific error value; no partial `WebGlCanvas` is ever returned. -/
theorem new_fail_fast (env : HostEnv) (id : String) :
    ((∃ tr c, WebGlCanvas.new env id = (tr, RustOutcome.ok c)) ↔
        constructionStepsSucceed env id) ∧
    (env.getElementById id = none →
       WebGlCanvas.new env id =
         ([], RustOutcome.panic "called `Option::unwrap()` on a `None` value")) ∧
    (∀ el, env.getElementById id = some el → el.isCanvas = false →
       WebGlCanvas.new env id = ([], RustOutcome.err (JsVal.elem el))) ∧
    (∀ el e, env.getElementById id = some el → el.isCanvas = true →
       env.getContext el "webgl2" = Except.error e →
       WebGlCanvas.new env id = ([], RustOutcome.err e)) ∧
    (∀ el, env.getElementById id = some el → el.isCanvas = true →
       env.getContext el "webgl2" = Except.ok none →
       WebGlCanvas.new env id =
         ([], RustOutcome.panic "called `Option::unwrap()` on a `None` value")) ∧
    (∀ el ctx, env.getElementById id = some el → el.isCanvas = true →
       env.getContext el "webgl2" = Except.ok (some ctx) → ctx.isWebGl2 = false →
       WebGlCanvas.new env id = ([], RustOutcome.err (JsVal.ctxObj ctx))) ∧
    (∀ el ctx msg, env.getElementById id = some el → el.isCanvas = true →
       env.getContext el "webgl2" = Except.ok (some ctx) → ctx.isWebGl2 = true →
       (compile_shader env GL_VERTEX_SHADER VERT_SHADER_SOURCE).2 = Except.error msg →
       WebGlCanvas.new env id =
         ((compile_shader env GL_VERTEX_SHADER VERT_SHADER_SOURCE).1,
          RustOutcome.err (JsVal.str msg))) ∧
    (∀ el ctx vs msg, env.getElementById id = some el → el.isCanvas = true →
       env.getContext el "webgl2" = Except.ok (some ctx) → ctx.isWebGl2 = true →
       (compile_shader env GL_VERTEX_SHADER VERT_SHADER_SOURCE).2 = Except.ok vs →
       (compile_shader env GL_FRAGMENT_SHADER FRAG_SHADER_SOURCE).2 = Except.error msg →
       WebGlCanvas.new env id =
         ((compile_shader env GL_VERTEX_SHADER VERT_SHADER_SOURCE).1 ++
            (compile_shader env GL_FRAGMENT_SHADER FRAG_SHADER_SOURCE).1,
          RustOutcome.err (JsVal.str msg))) ∧
    (∀ el ctx vs fs msg, env.getElementById id = some el → el.isCanvas = true →
       env.getContext el "webgl2" = Except.ok (some ctx) → ctx.isWebGl2 = true →
       (compile_shader env GL_VERTEX_SHADER VERT_SHADER_SOURCE).2 = Except.ok vs →
       (compile_shader env GL_FRAGMENT_SHADER FRAG_SHADER_SOURCE).2 = Except.ok fs →
       (link_program env vs fs).2 = Except.error msg →
       WebGlCanvas.new env id =
         ((compile_shader env GL_VERTEX_SHADER VERT_SHADER_SOURCE).1 ++
            (compile_shader env GL_FRAGMENT_SHADER FRAG_SHADER_SOURCE).1 ++
            (link_program env vs fs).1,
          RustOutcome.err (JsVal.str msg))) ∧
    (∀ el ctx vs fs p, env.getElementById id = some el → el.isCanvas = true →
       env.getContext el "webgl2" = Except.ok (some ctx) → ctx.isWebGl2 = true →
       (compile_shader env GL_VERTEX_SHADER VERT_SHADER_SOURCE).2 = Except.ok vs →
       (compile_shader env GL_FRAGMENT_SHADER FRAG_SHADER_SOURCE).2 = Except.ok fs →
       (link_program env vs fs).2 = Except.ok p →
       env.createBuffer = none →
       (WebGlCanvas.new env id).2 =
         RustOutcome.err (JsVal.str "Failed to create buffer")) ∧
    (∀ el ctx vs fs p b, env.getElementById id = some el → el.isCanvas = true →
       env.getContext el "webgl2" = Except.ok (some ctx) → ctx.isWebGl2 = true →
       (compile_shader env GL_VERTEX_SHADER VERT_SHADER_SOURCE).2 = Except.ok vs →
       (compile_shader env GL_FRAGMENT_SHADER FRAG_SHADER_SOURCE).2 = Except.ok fs →
       (link_program env vs fs).2 = Except.ok p →
       env.createBuffer = some b → env.createVertexArray = none →
       (WebGlCanvas.new env id).2 =
         RustOutcome.err (JsVal.str "Could not create vertex array object")) := by
  refine ⟨⟨?_, ?_⟩, ?_, ?_, ?_, ?_, ?_, ?_, ?_, ?_, ?_, ?_⟩
  · rintro ⟨tr, c, h⟩
    exact (new_ok_spec env id tr c h).2.2.2.2
  · exact new_ok_of_steps env id
  · intro h1
    unfold WebGlCanvas.new
    rw [h1]
  · intro el h1 h2
    unfold WebGlCanvas.new
    rw [h1]
    simp [h2]
  · intro el e h1 h2 h3
    unfold WebGlCanvas.new
    rw [h1]
    simp [h2, h3]
  · intro el h1 h2 h3
    unfold WebGlCanvas.new
    rw [h1]
    simp [h2, h3]
  · intro el ctx h1 h2 h3 h4
    unfold WebGlCanvas.new
    rw [h1]
    simp [h2, h3, h4]
  · intro el ctx msg h1 h2 h3 h4 hv
    unfold WebGlCanvas.new
    rw [h1]
    simp [h2, h3, h4, hv]
  · intro el ctx vs msg h1 h2 h3 h4 hv hf
    unfold WebGlCanvas.new
    rw [h1]
    simp [h2, h3, h4, hv, hf]
  · intro el ctx vs fs msg h1 h2 h3 h4 hv hf hl
    unfold WebGlCanvas.new
    rw [h1]
    simp [h2, h3, h4, hv, hf, hl]
  · intro el ctx vs fs p h1 h2 h3 h4 hv hf hl hb
    unfold WebGlCanvas.new
    rw [h1]
    simp [h2, h3, h4, hv, hf, hl, hb]
  · intro el ctx vs fs p b h1 h2 h3 h4 hv hf hl hb hvao
    unfold WebGlCanvas.new
    rw [h1]
    simp [h2, h3, h4, hv, hf, hl, hb, hvao]

/-- C8 counterexample: when surface resolution fails (absent element) the
construction aborts by panic, so no specific error value is propagated to
the caller, contradicting the claim's "the specific error of that step is
propagated" for that step. -/
theorem new_fail_fast_cex :
    envNoElem.getElementById "canvas" = none ∧
    (∀ e, (WebGlCanvas.new envNoElem "canvas").2 ≠ RustOutcome.err e) ∧
    (∀ c, (WebGlCanvas.new envNoElem "canvas").2 ≠ RustOutcome.ok c) := by
  refine ⟨rfl, ?_, ?_⟩ <;> intro x hx <;>
    rw [(by with_unfolding_all rfl :
      (WebGlCanvas.new envNoElem "canvas").2 =
        RustOutcome.panic "called `Option::unwrap()` on a `None` value")] at hx <;>
    simp at hx

/-- Witness for C8: the success case and six distinct failure cases at
concrete environments. -/
theorem new_fail_fast_witness :
    constructionStepsSucceed envW "canvas" ∧
    WebGlCanvas.new envCtxErr "canvas" = ([], RustOutcome.err (JsVal.hostExn 3)) ∧
    WebGlCanvas.new envCtxNone "canvas" =
      ([], RustOutcome.panic "called `Option::unwrap()` on a `None` value") ∧
    WebGlCanvas.new envCtxNotGl2 "canvas" =
      ([], RustOutcome.err (JsVal.ctxObj { tag := 9, isWebGl2 := false })) ∧
    WebGlCanvas.new envNoShader "canvas" =
      ([GlCmd.createShaderCall GL_VERTEX_SHADER],
       RustOutcome.err (JsVal.str "Unable to create shader object")) ∧
    (WebGlCanvas.new envNoBuffer "canvas").2 =
      RustOutcome.err (JsVal.str "Failed to create buffer") ∧
    (WebGlCanvas.new envNoVao "canvas").2 =
      RustOutcome.err (JsVal.str "Could not create vertex array object") := by
  refine ⟨(new_fail_fast envW "canvas").1.mp ⟨newTraceW, cW, by with_unfolding_all rfl⟩,
    (new_fail_fast envCtxErr "canvas").2.2.2.1 elW (JsVal.hostExn 3) rfl rfl rfl,
    (new_fail_fast envCtxNone "canvas").2.2.2.2.1 elW rfl rfl rfl,
    (new_fail_fast envCtxNotGl2 "canvas").2.2.2.2.2.1 elW
      { tag := 9, isWebGl2 := false } rfl rfl rfl rfl,
    ?_,
    (new_fail_fast envNoBuffer "canvas").2.2.2.2.2.2.2.2.2.1 elW ctxW ⟨1⟩ ⟨2⟩ ⟨1⟩
      rfl rfl rfl rfl rfl rfl rfl rfl,
    (new_fail_fast envNoVao "canvas").2.2.2.2.2.2.2.2.2.2 elW ctxW ⟨1⟩ ⟨2⟩ ⟨1⟩ ⟨1⟩
      rfl rfl rfl rfl rfl rfl rfl rfl rfl⟩
  have h := (new_fail_fast envNoShader "canvas").2.2.2.2.2.2.1 elW ctxW
    "Unable to create shader object" rfl rfl rfl rfl rfl
  exact h.trans (by with_unfolding_all rfl)

/-- C9 (amended): during every successful construction, the vertex
attribute at the queried `"position"` location (cast `i32 → u32`) — not
necessarily attribute 0 — is configured as a two-component 32-bit float
attribute with stride 0 and offset 0, and that attribute is enabled. -/
theorem vertex_attrib_configured (env : HostEnv) (id : String) (tr : List GlCmd)
    (c : WebGlCanvas) (h : WebGlCanvas.new env id = (tr, RustOutcome.ok c)) :
    GlCmd.vertexAttribPointerCall (u32_of_i32 (env.getAttribLocation c.program "position"))
      2 GL_FLOAT false 0 0 ∈ tr ∧
    GlCmd.enableVertexAttribArrayCall
      (u32_of_i32 (env.getAttribLocation c.program "position")) ∈ tr := by
  obtain ⟨_, ha, hb, _, _⟩ := new_ok_spec env id tr c h
  exact ⟨ha, hb⟩

/-- Witness for C9: in `envW` the queried location is 0, so attribute 0 is
configured and enabled. -/
theorem vertex_attrib_configured_witness :
    GlCmd.vertexAttribPointerCall 0 2 GL_FLOAT false 0 0 ∈ newTraceW ∧
    GlCmd.enableVertexAttribArrayCall 0 ∈ newTraceW := by
  obtain ⟨ha, hb⟩ := vertex_attrib_configured envW "canvas" newTraceW cW
    (by with_unfolding_all rfl)
  exact ⟨ha, hb⟩

/-- C9 counterexample: in an environment reporting the `"position"`
attribute at location 1, construction succeeds but attribute 1 — not
attribute 0 — is configured and enabled; no call configures or enables
attribute 0. -/
theorem vertex_attrib_zero_cex :
    (WebGlCanvas.new envLoc1 "canvas").2 = RustOutcome.ok cW ∧
    GlCmd.vertexAttribPointerCall 1 2 GL_FLOAT false 0 0 ∈ (WebGlCanvas.new envLoc1 "canvas").1 ∧
    (∀ size ty norm stride off,
       GlCmd.vertexAttribPointerCall 0 size ty norm stride off ∉
         (WebGlCanvas.new envLoc1 "canvas").1) ∧
    GlCmd.enableVertexAttribArrayCall 0 ∉ (WebGlCanvas.new envLoc1 "canvas").1 := by
  have htr : (WebGlCanvas.new envLoc1 "canvas").1 =
      [GlCmd.createShaderCall GL_VERTEX_SHADER,
       GlCmd.shaderSourceCall ⟨1⟩ VERT_SHADER_SOURCE,
       GlCmd.compileShaderCall ⟨1⟩,
       GlCmd.getShaderParameterCall ⟨1⟩ GL_COMPILE_STATUS,
       GlCmd.createShaderCall GL_FRAGMENT_SHADER,
       GlCmd.shaderSourceCall ⟨2⟩ FRAG_SHADER_SOURCE,
       GlCmd.compileShaderCall ⟨2⟩,
       GlCmd.getShaderParameterCall ⟨2⟩ GL_COMPILE_STATUS,
       GlCmd.createProgramCall,
       GlCmd.attachShaderCall ⟨1⟩ ⟨1⟩,
       GlCmd.attachShaderCall ⟨1⟩ ⟨2⟩,
       GlCmd.linkProgramCall ⟨1⟩,
       GlCmd.getProgramParameterCall ⟨1⟩ GL_LINK_STATUS,
       GlCmd.useProgramCall (some ⟨1⟩),
       GlCmd.getAttribLocationCall ⟨1⟩ "position",
       GlCmd.createBufferCall,
       GlCmd.bindBufferCall GL_ARRAY_BUFFER (some ⟨1⟩),
       GlCmd.bufferDataCall GL_ARRAY_BUFFER fixedVertices GL_STATIC_DRAW,
       GlCmd.createVertexArrayCall,
       GlCmd.bindVertexArrayCall (some ⟨1⟩),
       GlCmd.vertexAttribPointerCall 1 2 GL_FLOAT false 0 0,
       GlCmd.enableVertexAttribArrayCall 1,
       GlCmd.bindVertexArrayCall (some ⟨1⟩)] := by with_unfolding_all rfl
  refine ⟨by with_unfolding_all rfl, ?_, ?_, ?_⟩
  · rw [htr]; simp
  · intro size ty norm stride off hmem
    rw [htr] at hmem
    simp at hmem
  · intro hmem
    rw [htr] at hmem
    simp at hmem

/-- C10: buffer-object creation failure makes `new` return exactly
`"Failed to create buffer"`, and vertex-array-object creation failure makes
it return exactly `"Could not create vertex array object"`. -/
theorem new_buffer_vao_error_strings (env : HostEnv) (id : String) (el : Element)
    (ctx : ContextObj) (vs fs : WebGlShader) (p : WebGlProgram)
    (h1 : env.getElementById id = some el) (h2 : el.isCanvas = true)
    (h3 : env.getContext el "webgl2" = Except.ok (some ctx)) (h4 : ctx.isWebGl2 = true)
    (hvs : env.createShader GL_VERTEX_SHADER = some vs)
    (hvst : (env.getShaderCompileStatus vs).getD false = true)
    (hfs : env.createShader GL_FRAGMENT_SHADER = some fs)
    (hfst : (env.getShaderCompileStatus fs).getD false = true)
    (hp : env.createProgram = some p)
    (hpst : (env.getProgramLinkStatus p).getD false = true) :
    (env.createBuffer = none →
       (WebGlCanvas.new env id).2 = RustOutcome.err (JsVal.str "Failed to create buffer")) ∧
    (∀ b, env.createBuffer = some b → env.createVertexArray = none →
       (WebGlCanvas.new env id).2 =
         RustOutcome.err (JsVal.str "Could not create vertex array object")) := by
  constructor
  · intro hb
    unfold WebGlCanvas.new
    simp [h1, h2, h3, h4, compile_shader_ok env _ _ _ hvs hvst,
      compile_shader_ok env _ _ _ hfs hfst, link_program_ok env _ _ _ hp hpst, hb]
  · intro b hb hvao
    unfold WebGlCanvas.new
    simp [h1, h2, h3, h4, compile_shader_ok env _ _ _ hvs hvst,
      compile_shader_ok env _ _ _ hfs hfst, link_program_ok env _ _ _ hp hpst, hb, hvao]

/-- Witness for C10: both allocation-failure error strings at concrete
environments. -/
theorem new_buffer_vao_error_strings_witness :
    (WebGlCanvas.new envNoBuffer "canvas").2 =
      RustOutcome.err (JsVal.str "Failed to create buffer") ∧
    (WebGlCanvas.new envNoVao "canvas").2 =
      RustOutcome.err (JsVal.str "Could not create vertex array object") :=
  ⟨(new_buffer_vao_error_strings envNoBuffer "canvas" elW ctxW ⟨1⟩ ⟨2⟩ ⟨1⟩
      rfl rfl rfl rfl rfl rfl rfl rfl rfl rfl).1 rfl,
   (new_buffer_vao_error_strings envNoVao "canvas" elW ctxW ⟨1⟩ ⟨2⟩ ⟨1⟩
      rfl rfl rfl rfl rfl rfl rfl rfl rfl rfl).2 ⟨1⟩ rfl rfl⟩
